import Mathlib

/-!
Shallow embedding of the OS-interop / paste-injection engine of the
Windows-11-Clipboard-History-For-Linux desktop utility, and verification of
the specification's claims about it.

The Rust modules embedded here are:
  * `src-tauri/src/session.rs`        (session detection with a process cache)
  * `src-tauri/src/focus_manager.rs`  (save / restore of the focused window)
  * `src-tauri/src/input_simulator.rs` (multi-strategy paste keystroke chain)
  * `src-tauri/src/gif_manager.rs`    (download, clipboard publishing, fallbacks)

External effects (environment variables, subprocess spawns, X11 requests,
network transfers, filesystem writes) are modelled by explicit oracle records:
each fallible OS interaction is a field carrying the outcome the OS would
produce, and each function additionally returns a trace of the effects it
performed, so that claims about "no system call happens" or "the helper is
never awaited" are statable.
-/

deriving instance DecidableEq for Except

namespace Win11Clip

/-! ## Environment snapshot -/

/-- The environment variables consulted by `session.rs`.  `none` models an
absent variable; `some s` a variable present with value `s`. -/
structure Env where
  xdg_session_type : Option String
  wayland_display : Option String
  display : Option String
deriving DecidableEq, Repr

/-! ## String helpers

Executable stand-ins for Rust's `str::trim` and `str::to_lowercase`,
written over the character list so concrete instances reduce. -/

/-- Rust `str::trim`: drop leading and trailing whitespace. -/
def rustTrim (s : String) : String :=
  ⟨((s.data.dropWhile Char.isWhitespace).reverse.dropWhile
      Char.isWhitespace).reverse⟩

/-- Rust `str::to_lowercase`, restricted to the ASCII range that the
matched literals "wayland"/"x11" occupy. -/
def rustLower (s : String) : String :=
  ⟨s.data.map Char.toLower⟩

/-! ## `session.rs` -/

/-- `SessionType` from `session.rs`. -/
inductive SessionType where
  | wayland
  | x11
  | unknown
deriving DecidableEq, Repr

/-- `SessionType::detect` from `session.rs`: check `XDG_SESSION_TYPE`
(trimmed, lowercased) for "wayland"/"x11"; else presence of
`WAYLAND_DISPLAY`; else presence of `DISPLAY`; else `Unknown`.  Returns the
detected type together with the source label that the Rust code logs. -/
def SessionType.detect (env : Env) : SessionType × String :=
  let step1 : Option (SessionType × String) :=
    match env.xdg_session_type with
    | some val =>
      let v := rustLower (rustTrim val)
      if v = "wayland" then some (SessionType.wayland, "XDG_SESSION_TYPE")
      else if v = "x11" then some (SessionType.x11, "XDG_SESSION_TYPE")
      else none
    | none => none
  match step1 with
  | some r => r
  | none =>
    if env.wayland_display.isSome then (SessionType.wayland, "WAYLAND_DISPLAY")
    else if env.display.isSome then (SessionType.x11, "DISPLAY")
    else (SessionType.unknown, "None")

/-- `get_session_type` from `session.rs`.  The `OnceLock` singleton is
modelled by explicit state passing: `cache = none` is the uninitialized
`OnceLock`, `cache = some s` the initialized one.  The function returns the
session type together with the cache state after the call. -/
def get_session_type (env : Env) (cache : Option SessionType) :
    SessionType × Option SessionType :=
  match cache with
  | some s => (s, some s)
  | none =>
    let s := (SessionType.detect env).1
    (s, some s)

/-- `is_wayland` from `session.rs`. -/
def is_wayland (env : Env) (cache : Option SessionType) : Bool × Option SessionType :=
  let (s, c) := get_session_type env cache
  (s = SessionType.wayland, c)

/-- Detection written from the spec's words, claim C5 as stated: the
session-type signal is compared to "wayland"/"x11" case-insensitively (no
trimming mentioned); otherwise presence of the Wayland-display signal, then
of the X11-display signal; otherwise Unknown. -/
def specDetect (env : Env) : SessionType :=
  let step1 : Option SessionType :=
    match env.xdg_session_type with
    | some val =>
      if rustLower val = "wayland" then some SessionType.wayland
      else if rustLower val = "x11" then some SessionType.x11
      else none
    | none => none
  match step1 with
  | some r => r
  | none =>
    if env.wayland_display.isSome then SessionType.wayland
    else if env.display.isSome then SessionType.x11
    else SessionType.unknown

/-- Detection written from the spec's words as amended for claim C5: the
same precedence, with the case-insensitive comparison performed after
trimming surrounding whitespace (as the source does). -/
def specDetectTrimmed (env : Env) : SessionType :=
  let step1 : Option SessionType :=
    match env.xdg_session_type with
    | some val =>
      if rustLower (rustTrim val) = "wayland" then some SessionType.wayland
      else if rustLower (rustTrim val) = "x11" then some SessionType.x11
      else none
    | none => none
  match step1 with
  | some r => r
  | none =>
    if env.wayland_display.isSome then SessionType.wayland
    else if env.display.isSome then SessionType.x11
    else SessionType.unknown

/-! ## `focus_manager.rs` -/

/-- Outcomes of the X11 interactions performed by `focus_manager.rs`:
`connect` is `x11rb::connect`, `focusRequest` the `get_input_focus()` request,
`focusReply` its `reply()` (carrying the focused window id on success). -/
structure FocusEnv where
  connect : Except String Unit
  focusRequest : Except String Unit
  focusReply : Except String Nat
deriving DecidableEq, Repr

/-- `FOCUS_RESTORE_DELAY` from `focus_manager.rs` (milliseconds). -/
def FOCUS_RESTORE_DELAY : Nat := 100

/-- Windowing-system calls made by `focus_manager.rs`, recorded as a trace.
`setInputFocus` records (revert-to-parent flag, window id, timestamp). -/
inductive FocusEffect where
  | connect
  | getInputFocusReq
  | focusReplyWait
  | setInputFocus (revertToParent : Bool) (window : Nat) (time : Nat)
  | flushConn
  | sleepMs (ms : Nat)
deriving DecidableEq, Repr

/-- `x11rb::CURRENT_TIME` (the protocol constant 0). -/
def CURRENT_TIME : Nat := 0

/-- `save_focused_window` from `focus_manager.rs`.  The process-wide
`LAST_FOCUSED_WINDOW : AtomicU32` slot is explicit state (`slot`); failures
at any step are logged and leave the slot unchanged.  Returns the new slot
value and the trace of windowing-system calls made. -/
def save_focused_window (env : FocusEnv) (slot : Nat) : Nat × List FocusEffect :=
  match env.connect with
  | Except.error _ => (slot, [FocusEffect.connect])
  | Except.ok () =>
    match env.focusRequest with
    | Except.error _ => (slot, [FocusEffect.connect, FocusEffect.getInputFocusReq])
    | Except.ok () =>
      match env.focusReply with
      | Except.error _ =>
        (slot, [FocusEffect.connect, FocusEffect.getInputFocusReq,
          FocusEffect.focusReplyWait])
      | Except.ok window_id =>
        (window_id, [FocusEffect.connect, FocusEffect.getInputFocusReq,
          FocusEffect.focusReplyWait])

/-- The `flush()` outcome used by `restore_focused_window`; kept in its own
record so the restore path's oracles are exactly the calls it makes. -/
structure RestoreEnv where
  connect : Except String Unit
  setFocus : Except String Unit
  flushConn : Except String Unit
deriving DecidableEq, Repr

/-- `restore_focused_window` from `focus_manager.rs`: the sentinel slot value
0 returns the no-previous-focus error before any windowing-system call;
otherwise connect, `set_input_focus(PARENT, id, CURRENT_TIME)`, flush, then a
fixed `FOCUS_RESTORE_DELAY` sleep. -/
def restore_focused_window (env : RestoreEnv) (slot : Nat) :
    Except String Unit × List FocusEffect :=
  if slot = 0 then
    (Except.error "No previous window saved", [])
  else
    match env.connect with
    | Except.error e => (Except.error e, [FocusEffect.connect])
    | Except.ok () =>
      match env.setFocus with
      | Except.error e =>
        (Except.error ("Set focus failed: " ++ e),
          [FocusEffect.connect, FocusEffect.setInputFocus true slot CURRENT_TIME])
      | Except.ok () =>
        match env.flushConn with
        | Except.error e =>
          (Except.error ("Flush failed: " ++ e),
            [FocusEffect.connect, FocusEffect.setInputFocus true slot CURRENT_TIME,
              FocusEffect.flushConn])
        | Except.ok () =>
          (Except.ok (),
            [FocusEffect.connect, FocusEffect.setInputFocus true slot CURRENT_TIME,
              FocusEffect.flushConn, FocusEffect.sleepMs FOCUS_RESTORE_DELAY])

/-! ## `input_simulator.rs` -/

/-- The four paste strategies tried by `simulate_paste_keystroke`, in the
order they appear in `input_simulator.rs`. -/
inductive Strategy where
  | xtest
  | xdotool
  | enigo
  | uinput
deriving DecidableEq, Repr

/-- Success/failure outcomes of the individual strategies
(`simulate_paste_xtest`, `simulate_paste_xdotool`, `simulate_paste_enigo`,
`simulate_paste_uinput`), each a black box from the chain's point of view. -/
structure StrategyOutcomes where
  xtest : Bool
  xdotool : Bool
  enigo : Bool
  uinput : Bool
deriving DecidableEq, Repr

/-- The outcome of one strategy under a given outcome assignment. -/
def runStrategy (o : StrategyOutcomes) : Strategy → Bool
  | Strategy.xtest => o.xtest
  | Strategy.xdotool => o.xdotool
  | Strategy.enigo => o.enigo
  | Strategy.uinput => o.uinput

/-- The strategy order of `simulate_paste_keystroke`: under X11 the
session-specific XTest and xdotool attempts come first; the cross-session
enigo and uinput attempts always follow. -/
def strategyOrder (session : SessionType) : List Strategy :=
  (if session = SessionType.x11 then [Strategy.xtest, Strategy.xdotool] else [])
    ++ [Strategy.enigo, Strategy.uinput]

/-- The short-circuiting if-chain of `simulate_paste_keystroke` over a list
of strategies: try each in order, stop at the first success; exhaustion
yields the all-methods-failed error.  Also returns the list of strategies
actually attempted. -/
def tryStrategies (o : StrategyOutcomes) :
    List Strategy → Except String Unit × List Strategy
  | [] => (Except.error "All paste methods failed", [])
  | s :: rest =>
    if runStrategy o s then (Except.ok (), [s])
    else
      let r := tryStrategies o rest
      (r.1, s :: r.2)

/-- `simulate_paste_keystroke` from `input_simulator.rs` (Linux build): after
an initial 10 ms delay, the X11-only XTest and xdotool attempts, then the
session-agnostic enigo and uinput attempts, first success short-circuiting;
the session type is the cached `session::is_x11()` value. -/
def simulate_paste_keystroke (session : SessionType) (o : StrategyOutcomes) :
    Except String Unit × List Strategy :=
  tryStrategies o (strategyOrder session)

/-! ## `gif_manager.rs` -/

/-- Stands in for `std::collections::hash_map::DefaultHasher` applied to the
URL in `download_gif_to_file`: an unspecified deterministic 64-bit hash of
the string's UTF-8 bytes (`hasher.finish()` is a `u64`).  The claims depend
only on it being a 64-bit-wide pure function of the URL, so a concrete
FNV-1a-style fold reduced modulo 2^64 represents it. -/
def urlHash64 (s : String) : Nat :=
  s.toUTF8.toList.foldl
    (fun h b => ((h ^^^ b.toNat) * 1099511628211) % 2 ^ 64)
    14695981039346656037

/-- The files currently present in the GIF cache directory, by full path. -/
structure CacheState where
  files : List String
deriving DecidableEq, Repr

/-- Oracles for `download_gif_to_file`: `fetch url` is the combined outcome
of building the HTTP client, sending the GET, checking the status and
reading the body (error message folded in); `fsWrite` the combined outcome
of `File::create` plus `write_all`. -/
structure DlEnv where
  fetch : String → Except String (List Nat)
  fsWrite : Except String Unit

/-- `download_gif_to_file` from `gif_manager.rs`: sends the network request
unconditionally, then derives the cache path from the 64-bit hash of the URL
and writes the body there.  Returns (result path, cache state afterwards,
number of network downloads performed by this call).  Note the function
never consults the cache state before downloading. -/
def download_gif_to_file (env : DlEnv) (cacheDir : String) (st : CacheState)
    (url : String) : Except String String × CacheState × Nat :=
  match env.fetch url with
  | Except.error e => (Except.error e, st, 1)
  | Except.ok _bytes =>
    let gif_path := cacheDir ++ "/" ++ toString (urlHash64 url) ++ ".gif"
    match env.fsWrite with
    | Except.error e => (Except.error e, st, 1)
    | Except.ok () => (Except.ok gif_path, ⟨gif_path :: st.files⟩, 1)

/-- What `child.try_wait()` reports about the spawned `wl-copy` helper after
the settle sleep: already exited (with success flag), still running, or the
status check itself failed. -/
inductive WlStatus where
  | exited (success : Bool)
  | running
  | checkErr (msg : String)
deriving DecidableEq, Repr

/-- Effects performed by `copy_gif_to_clipboard_wayland`, in order.
`collectOutput` is the `wait_with_output()` on an already-exited child;
`waitForExit` (never emitted by the code) would be blocking on a live
child's eventual exit. -/
inductive WlEffect where
  | spawnHelper
  | writeStdin (payload : String)
  | closeStdin
  | sleepMs (ms : Nat)
  | tryWaitCheck
  | collectOutput
  | waitForExit
deriving DecidableEq, Repr

/-- Oracles for the clipboard-publishing helpers of `gif_manager.rs`:
spawn/stdin-write outcomes for `wl-copy` and `xclip`, the post-sleep status
of `wl-copy` plus its captured stderr (`none` when `wait_with_output` fails),
and the arboard (`Clipboard::new` / `set_text`) outcomes used by the
plain-text fallback. -/
structure GifEnv where
  dl : DlEnv
  cacheDir : String
  wayland_display : Option String
  xdg_runtime_dir : Option String
  display : Option String
  wlSpawn : Except String Unit
  wlWrite : Except String Unit
  wlStatus : WlStatus
  wlStderr : Option String
  xclipSpawn : Except String Unit
  xclipWrite : Except String Unit
  arboardNew : Except String Unit
  arboardSet : Except String Unit

/-- `copy_gif_to_clipboard_wayland` from `gif_manager.rs`: require
`WAYLAND_DISPLAY` and `XDG_RUNTIME_DIR`, spawn `wl-copy`, write the
newline-terminated file URI to its stdin and close it, sleep 150 ms, then
`try_wait`: a non-zero exit is an error carrying the captured stderr, still
running (or a zero exit) is success; the helper is never awaited. -/
def copy_gif_to_clipboard_wayland (env : GifEnv) (gif_path : String) :
    Except String Unit × List WlEffect :=
  match env.wayland_display with
  | none =>
    (Except.error "WAYLAND_DISPLAY not set; Wayland clipboard not available", [])
  | some _ =>
    match env.xdg_runtime_dir with
    | none =>
      (Except.error "XDG_RUNTIME_DIR not set; Wayland clipboard not available", [])
    | some _ =>
      let file_uri := "file://" ++ gif_path ++ "\n"
      match env.wlSpawn with
      | Except.error e =>
        (Except.error ("Failed to spawn wl-copy: " ++ e
          ++ ". Make sure wl-clipboard is installed."), [WlEffect.spawnHelper])
      | Except.ok () =>
        match env.wlWrite with
        | Except.error e =>
          (Except.error ("Failed to write to wl-copy: " ++ e),
            [WlEffect.spawnHelper, WlEffect.writeStdin file_uri])
        | Except.ok () =>
          let pre := [WlEffect.spawnHelper, WlEffect.writeStdin file_uri,
            WlEffect.closeStdin, WlEffect.sleepMs 150, WlEffect.tryWaitCheck]
          match env.wlStatus with
          | WlStatus.exited true => (Except.ok (), pre)
          | WlStatus.exited false =>
            match env.wlStderr with
            | some stderr =>
              (Except.error ("wl-copy failed: " ++ stderr),
                pre ++ [WlEffect.collectOutput])
            | none =>
              (Except.error "wl-copy failed with unknown error",
                pre ++ [WlEffect.collectOutput])
          | WlStatus.running => (Except.ok (), pre)
          | WlStatus.checkErr e =>
            (Except.error ("Failed to check wl-copy status: " ++ e), pre)

/-- `copy_gif_to_clipboard_x11` from `gif_manager.rs`: require `DISPLAY`,
spawn `xclip -selection clipboard -t text/uri-list -loops 0`, write the file
URI to its stdin, detach the child, succeed. -/
def copy_gif_to_clipboard_x11 (env : GifEnv) (_gif_path : String) :
    Except String Unit :=
  match env.display with
  | none => Except.error "DISPLAY not set; X11 clipboard not available"
  | some _ =>
    match env.xclipSpawn with
    | Except.error e =>
      Except.error ("Failed to spawn xclip: " ++ e ++ ". Make sure xclip is installed.")
    | Except.ok () =>
      match env.xclipWrite with
      | Except.error e => Except.error ("Failed to write to xclip: " ++ e)
      | Except.ok () => Except.ok ()

/-- `copy_url_to_clipboard` from `gif_manager.rs`: open the arboard
clipboard and set the URL as plain text. -/
def copy_url_to_clipboard (env : GifEnv) (_url : String) : Except String Unit :=
  match env.arboardNew with
  | Except.error e => Except.error ("Failed to open clipboard: " ++ e)
  | Except.ok () =>
    match env.arboardSet with
    | Except.error e => Except.error ("Failed to set clipboard: " ++ e)
    | Except.ok () => Except.ok ()

/-- `set_gif_clipboard_from_file` from `gif_manager.rs`: under Wayland try
the Wayland helper and fall back to the X11 helper on its failure; otherwise
use the X11 helper directly. -/
def set_gif_clipboard_from_file (env : GifEnv) (path : String)
    (is_wayland : Bool) : Except String Unit :=
  if is_wayland then
    match (copy_gif_to_clipboard_wayland env path).1 with
    | Except.ok () => Except.ok ()
    | Except.error _ => copy_gif_to_clipboard_x11 env path
  else
    copy_gif_to_clipboard_x11 env path

/-- The inner `let result = download_gif_to_file(url).and_then(...)` chain of
`paste_gif_to_clipboard_with_uri`: download, then publish the binary
content, yielding the file URI on success. -/
def download_and_set (env : GifEnv) (st : CacheState) (is_wayland : Bool)
    (url : String) : Except String String :=
  match (download_gif_to_file env.dl env.cacheDir st url).1 with
  | Except.error e => Except.error e
  | Except.ok gif_path =>
    let file_uri := "file://" ++ gif_path
    match set_gif_clipboard_from_file env gif_path is_wayland with
    | Except.ok () => Except.ok file_uri
    | Except.error e => Except.error e

/-- `paste_gif_to_clipboard_with_uri` from `gif_manager.rs`: on success of
the download-and-publish chain return `some` file URI; on its failure fall
back to publishing the URL as plain text and return `some url`; fail only
when that fallback also fails.  `is_wayland` is the cached
`session::is_wayland()` value. -/
def paste_gif_to_clipboard_with_uri (env : GifEnv) (st : CacheState)
    (is_wayland : Bool) (url : String) : Except String (Option String) :=
  match download_and_set env st is_wayland url with
  | Except.ok uri => Except.ok (some uri)
  | Except.error _ =>
    match copy_url_to_clipboard env url with
    | Except.error e => Except.error e
    | Except.ok () => Except.ok (some url)

/-- `paste_gif_to_clipboard` from `gif_manager.rs`. -/
def paste_gif_to_clipboard (env : GifEnv) (st : CacheState)
    (is_wayland : Bool) (url : String) : Except String Unit :=
  match paste_gif_to_clipboard_with_uri env st is_wayland url with
  | Except.ok _ => Except.ok ()
  | Except.error e => Except.error e

/-! ## Theorems -/

/-- C4: `get_session_type` is computed at most once per process: the first
call on an uninitialized cache evaluates `SessionType.detect` on that call's
environment snapshot, and any later call — under any (possibly mutated)
environment — returns the same variant from the cache without re-detection,
so any two calls in one process agree. -/
theorem get_session_type_cached_stable (env1 env2 : Env)
    (cache : Option SessionType) :
    (get_session_type env2 (get_session_type env1 cache).2).1
        = (get_session_type env1 cache).1
    ∧ (get_session_type env1 cache).2 = some (get_session_type env1 cache).1
    ∧ (cache = none →
        (get_session_type env1 cache).1 = (SessionType.detect env1).1) := by
  cases cache <;> simp [get_session_type]

/-- C4 witness: with an uninitialized cache, detection under an
X11-signalling environment followed by a call under a Wayland-signalling
environment still returns the first result. -/
theorem get_session_type_cached_stable_witness :
    (get_session_type ⟨some "x11", none, none⟩ none).1
      = (SessionType.detect ⟨some "x11", none, none⟩).1
    ∧ (get_session_type ⟨some "wayland", none, none⟩
        (get_session_type ⟨some "x11", none, none⟩ none).2).1
      = (get_session_type ⟨some "x11", none, none⟩ none).1 := by
  refine ⟨?_, ?_⟩
  · exact (get_session_type_cached_stable ⟨some "x11", none, none⟩
      ⟨some "wayland", none, none⟩ none).2.2 rfl
  · exact (get_session_type_cached_stable ⟨some "x11", none, none⟩
      ⟨some "wayland", none, none⟩ none).1

/-- C5 counterexample: the claim's precedence (case-insensitive match of the
session-type signal without trimming, then display-signal presence, then
Unknown) disagrees with the code at `XDG_SESSION_TYPE = " wayland"` with
both display signals absent: the code trims and returns Wayland, while the
claim's steps fall through to Unknown. -/
theorem detect_precedence_counterexample :
    ¬ (∀ env : Env, (SessionType.detect env).1 = specDetect env) := by
  intro h
  exact absurd (h ⟨some " wayland", none, none⟩) (by decide)

/-- C5 amended: session detection follows the claimed precedence with the
case-insensitive comparison of the session-type signal performed after
trimming surrounding whitespace: trimmed-lowercased match of
"wayland"/"x11" first, else presence of the Wayland-display signal, else
presence of the X11-display signal, else Unknown — total, never failing. -/
theorem detect_precedence_trimmed (env : Env) :
    (SessionType.detect env).1 = specDetectTrimmed env := by
  rcases env with ⟨x, w, d⟩
  cases x with
  | none => cases w <;> cases d <;> simp [SessionType.detect, specDetectTrimmed]
  | some val =>
    by_cases h1 : rustLower (rustTrim val) = "wayland"
    · simp [SessionType.detect, specDetectTrimmed, h1]
    · by_cases h2 : rustLower (rustTrim val) = "x11" <;>
        cases w <;> cases d <;>
          simp [SessionType.detect, specDetectTrimmed, h1, h2]

/-- C2: under X11, `simulate_paste_keystroke` attempts XTest, xdotool,
enigo, uinput in that order; for every success/failure assignment the call
succeeds iff some strategy succeeds, the attempted strategies are exactly
the failing prefix of that order followed by the first success (so a success
short-circuits the rest), and exhaustion of all four yields the
all-strategies-exhausted error having attempted all four. -/
theorem simulate_paste_x11_strategy_chain (a b c d : Bool) :
    strategyOrder SessionType.x11
        = [Strategy.xtest, Strategy.xdotool, Strategy.enigo, Strategy.uinput]
    ∧ ((simulate_paste_keystroke SessionType.x11 ⟨a, b, c, d⟩).1 = Except.ok ()
        ↔ (a || b || c || d) = true)
    ∧ (simulate_paste_keystroke SessionType.x11 ⟨a, b, c, d⟩).2
        = (strategyOrder SessionType.x11).takeWhile
            (fun s => !runStrategy ⟨a, b, c, d⟩ s)
          ++ ((strategyOrder SessionType.x11).dropWhile
            (fun s => !runStrategy ⟨a, b, c, d⟩ s)).take 1
    ∧ ((a || b || c || d) = false →
        (simulate_paste_keystroke SessionType.x11 ⟨a, b, c, d⟩).1
            = Except.error "All paste methods failed"
        ∧ (simulate_paste_keystroke SessionType.x11 ⟨a, b, c, d⟩).2
            = strategyOrder SessionType.x11) := by
  cases a <;> cases b <;> cases c <;> cases d <;> decide

/-- C2 witness: with only the virtual-device (uinput) strategy succeeding,
the overall X11 call still returns success. -/
theorem simulate_paste_x11_strategy_chain_witness :
    (simulate_paste_keystroke SessionType.x11 ⟨false, false, false, true⟩).1
      = Except.ok () :=
  (simulate_paste_x11_strategy_chain false false false true).2.1.mpr (by decide)

/-- C6: whenever the focus slot holds the sentinel 0, `restore_focused_window`
returns the no-previous-focus error with an empty effect trace — no
windowing-system connection is opened and no system call is made, whatever
the X11 oracles would have answered. -/
theorem restore_no_previous_focus (env : RestoreEnv) (slot : Nat)
    (h : slot = 0) :
    restore_focused_window env slot
      = (Except.error "No previous window saved", []) := by
  subst h
  simp [restore_focused_window]

/-- C6 witness: the sentinel slot yields the error and no effects even with
every X11 interaction set to succeed. -/
theorem restore_no_previous_focus_witness :
    restore_focused_window ⟨Except.ok (), Except.ok (), Except.ok ()⟩ 0
      = (Except.error "No previous window saved", []) :=
  restore_no_previous_focus ⟨Except.ok (), Except.ok (), Except.ok ()⟩ 0 rfl

/-- C8: `save_focused_window` either leaves the slot unchanged or overwrites
it with the queried window id; a failure of the connection, of the
focus-query request, or of its reply leaves the slot at its previous value,
and only full success stores the queried id. -/
theorem save_focus_slot_frame (env : FocusEnv) (slot : Nat) :
    ((save_focused_window env slot).1 = slot
      ∨ env.focusReply = Except.ok (save_focused_window env slot).1)
    ∧ (∀ e, env.connect = Except.error e →
        (save_focused_window env slot).1 = slot)
    ∧ (∀ e, env.focusRequest = Except.error e →
        (save_focused_window env slot).1 = slot)
    ∧ (∀ e, env.focusReply = Except.error e →
        (save_focused_window env slot).1 = slot)
    ∧ (∀ wid, env.connect = Except.ok () → env.focusRequest = Except.ok () →
        env.focusReply = Except.ok wid →
        (save_focused_window env slot).1 = wid) := by
  rcases env with ⟨c, r, p⟩
  cases c <;> cases r <;> cases p <;>
    simp [save_focused_window]

/-- C8 witness: a failed connection leaves the slot at 5; a fully successful
query overwrites a slot of 5 with the reported window id 7. -/
theorem save_focus_slot_frame_witness :
    (save_focused_window ⟨Except.error "refused", Except.ok (), Except.ok 7⟩ 5).1 = 5
    ∧ (save_focused_window ⟨Except.ok (), Except.ok (), Except.ok 7⟩ 5).1 = 7 :=
  ⟨(save_focus_slot_frame ⟨Except.error "refused", Except.ok (), Except.ok 7⟩ 5).2.1
      "refused" rfl,
    (save_focus_slot_frame ⟨Except.ok (), Except.ok (), Except.ok 7⟩ 5).2.2.2.2
      7 rfl rfl rfl⟩

/-- C9: when the focus query fully succeeds and reports window id 0,
`save_focused_window` stores 0 — the sentinel — so a subsequent
`restore_focused_window` behaves exactly as if nothing had been saved:
it returns the no-previous-focus error with no system call, for any prior
slot value and any restore-time oracles. -/
theorem save_zero_focus_indistinguishable (env : FocusEnv) (renv : RestoreEnv)
    (slot : Nat) (hc : env.connect = Except.ok ())
    (hr : env.focusRequest = Except.ok ())
    (hp : env.focusReply = Except.ok 0) :
    (save_focused_window env slot).1 = 0
    ∧ restore_focused_window renv (save_focused_window env slot).1
        = restore_focused_window renv 0
    ∧ restore_focused_window renv (save_focused_window env slot).1
        = (Except.error "No previous window saved", []) := by
  rcases env with ⟨c, r, p⟩
  cases hc; cases hr; cases hp
  refine ⟨rfl, rfl, ?_⟩
  simp [save_focused_window, restore_focused_window]

/-- C9 witness: a successfully saved focus of 0 makes restore fail with the
no-previous-focus error even though the save itself succeeded. -/
theorem save_zero_focus_indistinguishable_witness :
    restore_focused_window ⟨Except.ok (), Except.ok (), Except.ok ()⟩
        (save_focused_window ⟨Except.ok (), Except.ok (), Except.ok 0⟩ 42).1
      = (Except.error "No previous window saved", []) :=
  (save_zero_focus_indistinguishable ⟨Except.ok (), Except.ok (), Except.ok 0⟩
    ⟨Except.ok (), Except.ok (), Except.ok ()⟩ 42 rfl rfl rfl).2.2

/-- C7: with the Wayland environment present and the helper spawned and its
stdin written successfully, `copy_gif_to_clipboard_wayland` performs, in
order: spawn, write of the newline-terminated file-URI payload, close of
stdin, a fixed 150 ms settle sleep, then the status check; a helper that has
already exited non-zero makes the call fail with a message carrying the
captured error-stream diagnostics; a still-running helper makes the call
succeed with exactly those five effects — and no branch ever blocks on the
helper's eventual exit. -/
theorem wl_copy_settle_check (env : GifEnv) (path wd rd : String)
    (hw : env.wayland_display = some wd) (hr : env.xdg_runtime_dir = some rd)
    (hs : env.wlSpawn = Except.ok ()) (hwr : env.wlWrite = Except.ok ()) :
    (copy_gif_to_clipboard_wayland env path).2.take 5
        = [WlEffect.spawnHelper, WlEffect.writeStdin ("file://" ++ path ++ "\n"),
            WlEffect.closeStdin, WlEffect.sleepMs 150, WlEffect.tryWaitCheck]
    ∧ (∀ s, env.wlStatus = WlStatus.exited false → env.wlStderr = some s →
        (copy_gif_to_clipboard_wayland env path).1
          = Except.error ("wl-copy failed: " ++ s))
    ∧ (env.wlStatus = WlStatus.running →
        copy_gif_to_clipboard_wayland env path
          = (Except.ok (), [WlEffect.spawnHelper,
              WlEffect.writeStdin ("file://" ++ path ++ "\n"),
              WlEffect.closeStdin, WlEffect.sleepMs 150, WlEffect.tryWaitCheck]))
    ∧ WlEffect.waitForExit ∉ (copy_gif_to_clipboard_wayland env path).2 := by
  rcases env with ⟨d0, c0, w0, x0, dp0, s0, wr0, st0, se0, p0, q0, n0, t0⟩
  simp only at hw hr hs hwr
  subst hw hr hs hwr
  cases st0 with
  | exited ok => cases ok <;> cases se0 <;> simp [copy_gif_to_clipboard_wayland]
  | running => simp [copy_gif_to_clipboard_wayland]
  | checkErr m => simp [copy_gif_to_clipboard_wayland]

/-- C7 witness: with the Wayland environment present, a successful spawn and
write, and the helper still running after the settle sleep, the call
succeeds with exactly the write/close/sleep/check effect sequence. -/
theorem wl_copy_settle_check_witness :
    copy_gif_to_clipboard_wayland
        ⟨⟨fun _ => Except.ok [0], Except.ok ()⟩, "c", some "wayland-0",
          some "/run/user", none, Except.ok (), Except.ok (), WlStatus.running,
          none, Except.ok (), Except.ok (), Except.ok (), Except.ok ()⟩ "p"
      = (Except.ok (), [WlEffect.spawnHelper, WlEffect.writeStdin "file://p\n",
          WlEffect.closeStdin, WlEffect.sleepMs 150, WlEffect.tryWaitCheck]) :=
  (wl_copy_settle_check
      ⟨⟨fun _ => Except.ok [0], Except.ok ()⟩, "c", some "wayland-0",
        some "/run/user", none, Except.ok (), Except.ok (), WlStatus.running,
        none, Except.ok (), Except.ok (), Except.ok (), Except.ok ()⟩
      "p" "wayland-0" "/run/user" rfl rfl rfl rfl).2.2.1 rfl

/-- Helper: a successful `download_and_set` always carries the file URI of
the hash-named cache path. -/
theorem download_and_set_ok_shape (env : GifEnv) (st : CacheState) (w : Bool)
    (url u : String) (h : download_and_set env st w url = Except.ok u) :
    u = "file://" ++ (env.cacheDir ++ "/" ++ toString (urlHash64 url) ++ ".gif") := by
  cases hf : env.dl.fetch url with
  | error e => simp [download_and_set, download_gif_to_file, hf] at h
  | ok bytes =>
    cases hw2 : env.dl.fsWrite with
    | error e => simp [download_and_set, download_gif_to_file, hf, hw2] at h
    | ok u2 =>
      cases hs : set_gif_clipboard_from_file env
          (env.cacheDir ++ "/" ++ toString (urlHash64 url) ++ ".gif") w with
      | error e => simp [download_and_set, download_gif_to_file, hf, hw2, hs] at h
      | ok u3 =>
        simp [download_and_set, download_gif_to_file, hf, hw2, hs] at h
        exact h.symm

/-- C3: under Wayland the binary publish tries the Wayland helper first —
its success suffices — and on its failure the result is exactly the X11
helper's; at the top level a successful download and binary publish returns
the file URI, while a failed download-and-publish chain with a working
arboard clipboard falls back to publishing the original URL as plain text
and still returns success, carrying the URL as the identifying string. -/
theorem set_binary_content_fallback_chain (env : GifEnv) (st : CacheState)
    (url path : String) :
    ((copy_gif_to_clipboard_wayland env path).1 = Except.ok () →
        set_gif_clipboard_from_file env path true = Except.ok ())
    ∧ (∀ e, (copy_gif_to_clipboard_wayland env path).1 = Except.error e →
        set_gif_clipboard_from_file env path true
          = copy_gif_to_clipboard_x11 env path)
    ∧ (∀ p, (download_gif_to_file env.dl env.cacheDir st url).1 = Except.ok p →
        set_gif_clipboard_from_file env p true = Except.ok () →
        paste_gif_to_clipboard_with_uri env st true url
          = Except.ok (some ("file://" ++ p)))
    ∧ (∀ e, download_and_set env st true url = Except.error e →
        env.arboardNew = Except.ok () → env.arboardSet = Except.ok () →
        paste_gif_to_clipboard_with_uri env st true url
          = Except.ok (some url)) := by
  refine ⟨?_, ?_, ?_, ?_⟩
  · intro h
    simp [set_gif_clipboard_from_file, h]
  · intro e h
    simp [set_gif_clipboard_from_file, h]
  · intro p h1 h2
    simp [paste_gif_to_clipboard_with_uri, download_and_set, h1, h2]
  · intro e hds han has
    simp [paste_gif_to_clipboard_with_uri, hds, copy_url_to_clipboard, han, has]

/-- C3 witness: with the download succeeding but both display signals absent
(so both clipboard helpers are unavailable) and a working arboard clipboard,
the call still succeeds and returns the original URL as the identifying
string. -/
theorem set_binary_content_fallback_chain_witness :
    paste_gif_to_clipboard_with_uri
        ⟨⟨fun _ => Except.ok [7], Except.ok ()⟩, "c", none, none, none,
          Except.ok (), Except.ok (), WlStatus.running, none, Except.ok (),
          Except.ok (), Except.ok (), Except.ok ()⟩ ⟨[]⟩ true "http://u"
      = Except.ok (some "http://u") :=
  (set_binary_content_fallback_chain
      ⟨⟨fun _ => Except.ok [7], Except.ok ()⟩, "c", none, none, none,
        Except.ok (), Except.ok (), WlStatus.running, none, Except.ok (),
        Except.ok (), Except.ok (), Except.ok ()⟩ ⟨[]⟩ "http://u" "p").2.2.2
    "DISPLAY not set; X11 clipboard not available" rfl rfl rfl

/-- C10: `paste_gif_to_clipboard_with_uri` never returns `Ok(None)`: a
successful download-and-publish chain yields `some` file URI of the
hash-named cache file, a failed chain with a working plain-text write yields
`some` original URL, and an error is returned only when the chain failed and
the plain-text clipboard write failed too. -/
theorem paste_with_uri_never_ok_none (env : GifEnv) (st : CacheState)
    (w : Bool) (url : String) :
    paste_gif_to_clipboard_with_uri env st w url ≠ Except.ok none
    ∧ (∀ u, download_and_set env st w url = Except.ok u →
        paste_gif_to_clipboard_with_uri env st w url = Except.ok (some u)
        ∧ u = "file://"
            ++ (env.cacheDir ++ "/" ++ toString (urlHash64 url) ++ ".gif"))
    ∧ (∀ e, paste_gif_to_clipboard_with_uri env st w url = Except.error e →
        (∃ e2, download_and_set env st w url = Except.error e2)
        ∧ copy_url_to_clipboard env url = Except.error e)
    ∧ (∀ e, download_and_set env st w url = Except.error e →
        copy_url_to_clipboard env url = Except.ok () →
        paste_gif_to_clipboard_with_uri env st w url
          = Except.ok (some url)) := by
  refine ⟨?_, ?_, ?_, ?_⟩
  · cases hds : download_and_set env st w url with
    | ok u1 => simp [paste_gif_to_clipboard_with_uri, hds]
    | error e =>
      cases hcu : copy_url_to_clipboard env url with
      | ok u2 => simp [paste_gif_to_clipboard_with_uri, hds, hcu]
      | error e2 => simp [paste_gif_to_clipboard_with_uri, hds, hcu]
  · intro u hu
    exact ⟨by simp [paste_gif_to_clipboard_with_uri, hu],
      download_and_set_ok_shape env st w url u hu⟩
  · intro e he
    cases hds : download_and_set env st w url with
    | ok u1 => simp [paste_gif_to_clipboard_with_uri, hds] at he
    | error e2 =>
      cases hcu : copy_url_to_clipboard env url with
      | ok u2 => simp [paste_gif_to_clipboard_with_uri, hds, hcu] at he
      | error e3 =>
        simp [paste_gif_to_clipboard_with_uri, hds, hcu] at he
        subst he
        exact ⟨⟨e2, rfl⟩, rfl⟩
  · intro e hds hcu
    simp [paste_gif_to_clipboard_with_uri, hds, hcu]

/-- C10 witness: with the network down and a working arboard clipboard, the
call returns `Ok(Some(url))`, not `Ok(None)` and not an error. -/
theorem paste_with_uri_never_ok_none_witness :
    paste_gif_to_clipboard_with_uri
        ⟨⟨fun _ => Except.error "network down", Except.ok ()⟩, "c", none, none,
          none, Except.ok (), Except.ok (), WlStatus.running, none,
          Except.ok (), Except.ok (), Except.ok (), Except.ok ()⟩ ⟨[]⟩ false "u"
      = Except.ok (some "u") :=
  (paste_with_uri_never_ok_none
      ⟨⟨fun _ => Except.error "network down", Except.ok ()⟩, "c", none, none,
        none, Except.ok (), Except.ok (), WlStatus.running, none,
        Except.ok (), Except.ok (), Except.ok (), Except.ok ()⟩ ⟨[]⟩ false
      "u").2.2.2 "network down" rfl rfl

/-- C1 counterexample: the claim's cache-hit half fails — after a first
successful call has placed the hash-named file in the cache, a second call
with the resulting cache state still performs a network download (the code
never consults the cache before downloading), refuting "the second call
performs no network download". -/
theorem download_gif_no_cache_hit_counterexample :
    ¬ (∀ (env : DlEnv) (cacheDir : String) (st : CacheState) (url p : String)
        (st1 : CacheState) (n1 : Nat),
        download_gif_to_file env cacheDir st url = (Except.ok p, st1, n1) →
        (download_gif_to_file env cacheDir st1 url).2.2 = 0) := by
  intro h
  have h2 := h ⟨fun _ => Except.ok [0], Except.ok ()⟩ "c" ⟨[]⟩ "u"
      ("c" ++ "/" ++ toString (urlHash64 "u") ++ ".gif")
      ⟨["c" ++ "/" ++ toString (urlHash64 "u") ++ ".gif"]⟩ 1 rfl
  simp [download_gif_to_file] at h2

/-- C1 amended: `download_gif_to_file` is idempotent in its returned path —
every successful call returns the cache directory joined with the 64-bit
hash of the URL plus the ".gif" suffix, so a second call under the same
oracles returns the same path — but every call, the second included,
performs exactly one network download: there is no cache-hit check. -/
theorem download_gif_path_idempotent (env : DlEnv) (cacheDir : String)
    (st st2 : CacheState) (url p : String)
    (h : (download_gif_to_file env cacheDir st url).1 = Except.ok p) :
    p = cacheDir ++ "/" ++ toString (urlHash64 url) ++ ".gif"
    ∧ (download_gif_to_file env cacheDir st2 url).1 = Except.ok p
    ∧ (download_gif_to_file env cacheDir st url).2.2 = 1
    ∧ (download_gif_to_file env cacheDir st2 url).2.2 = 1 := by
  cases hf : env.fetch url with
  | error e => simp [download_gif_to_file, hf] at h
  | ok bytes =>
    cases hw2 : env.fsWrite with
    | error e => simp [download_gif_to_file, hf, hw2] at h
    | ok u2 =>
      simp [download_gif_to_file, hf, hw2] at h
      simp [download_gif_to_file, hf, hw2, h]

/-- C1 amended witness: with a deterministic network oracle, a first call
and a second call with the first call's cache state both return the
hash-derived path, each performing one download. -/
theorem download_gif_path_idempotent_witness :
    (download_gif_to_file ⟨fun _ => Except.ok [0], Except.ok ()⟩ "c"
        ⟨["c" ++ "/" ++ toString (urlHash64 "u") ++ ".gif"]⟩ "u").1
      = Except.ok ("c" ++ "/" ++ toString (urlHash64 "u") ++ ".gif")
    ∧ (download_gif_to_file ⟨fun _ => Except.ok [0], Except.ok ()⟩ "c"
        ⟨["c" ++ "/" ++ toString (urlHash64 "u") ++ ".gif"]⟩ "u").2.2 = 1 :=
  ⟨(download_gif_path_idempotent ⟨fun _ => Except.ok [0], Except.ok ()⟩ "c"
      ⟨[]⟩ ⟨["c" ++ "/" ++ toString (urlHash64 "u") ++ ".gif"]⟩ "u"
      ("c" ++ "/" ++ toString (urlHash64 "u") ++ ".gif") rfl).2.1,
    (download_gif_path_idempotent ⟨fun _ => Except.ok [0], Except.ok ()⟩ "c"
      ⟨[]⟩ ⟨["c" ++ "/" ++ toString (urlHash64 "u") ++ ".gif"]⟩ "u"
      ("c" ++ "/" ++ toString (urlHash64 "u") ++ ".gif") rfl).2.2.2⟩

end Win11Clip
